import Mathlib

/-!
Embedding of the mfrc522 Linux plugin, `linux/mfrc522_plugin.cc`.

The plugin is a GObject whose only behaviour is the method-call dispatcher
`mfrc522_plugin_handle_method_call`.  The embedding passes the host state
explicitly: the heap of plugin instances (with their reference counts), the
method channels attached to the binary messenger, and the log of responses
handed to `fl_method_call_respond`.  The `uname` system call is a parameter of
the model.  C characters (`gchar`) are modelled by `Char`, C strings by the list
of their characters.
-/

namespace Mfrc522

/-! ## C strings -/

/-- The terminating character of a C string. -/
def NUL : Char := Char.ofNat 0

/-- Contents of the C string stored in a character buffer: the characters before the
first NUL.  (Every buffer read by the program is NUL-terminated: `uname` terminates the
fields it fills, and the zero-initialised record holds only NULs.) -/
def c_str (buf : List Char) : List Char :=
  buf.takeWhile (fun c => c != NUL)

/-- The libc `strcmp`: walks both strings, returns the difference of the first pair of
characters that differ, and `0` when the terminator is reached on both sides.  The end of
the list reads as the terminator. -/
def strcmp : List Char → List Char → Int
  | [], [] => 0
  | [], c2 :: _ => 0 - (c2.toNat : Int)
  | c1 :: _, [] => (c1.toNat : Int) - 0
  | c1 :: s1, c2 :: s2 =>
    if c1 = c2 then
      if c1 = NUL then 0 else strcmp s1 s2
    else (c1.toNat : Int) - (c2.toNat : Int)

/-- The GLib `g_strdup_printf`, for the directives `%s` and `%%`: the format is copied,
each `%s` replaced by the C string its argument points to.  (A `%s` without
an argument is undefined in C; the model copies it.) -/
def g_strdup_printf : List Char → List (List Char) → List Char
  | [], _ => []
  | [c], _ => [c]
  | c :: d :: rest, args =>
    if c = '%' ∧ d = 's' then
      match args with
      | arg :: args1 => c_str arg ++ g_strdup_printf rest args1
      | [] => c :: g_strdup_printf (d :: rest) []
    else if c = '%' ∧ d = '%' then '%' :: g_strdup_printf rest args
    else c :: g_strdup_printf (d :: rest) args

/-! ## The operating system record -/

/-- Length of each field of `struct utsname` (glibc `_UTSNAME_LENGTH`). -/
def UTSNAME_LENGTH : Nat := 65

/-- The record `struct utsname` of `<sys/utsname.h>`: six character arrays. -/
structure utsname where
  sysname : List Char
  nodename : List Char
  release : List Char
  version : List Char
  machine : List Char
  domainname : List Char
  deriving DecidableEq, Repr

/-- The zero-initialised record `struct utsname uname_data = {}`. -/
def utsname_zero : utsname :=
  { sysname := List.replicate UTSNAME_LENGTH NUL
    nodename := List.replicate UTSNAME_LENGTH NUL
    release := List.replicate UTSNAME_LENGTH NUL
    version := List.replicate UTSNAME_LENGTH NUL
    machine := List.replicate UTSNAME_LENGTH NUL
    domainname := List.replicate UTSNAME_LENGTH NUL }

/-- The `uname(2)` system call: given the record it is handed, the status it returns and
the record it leaves behind. -/
abbrev Uname := utsname → Int × utsname

/-! ## Flutter values, calls and responses -/

/-- The Flutter `FlValue` (the cases without floating point). -/
inductive FlValue where
  | null
  | bool (b : Bool)
  | int (i : Int)
  | string (s : List Char)
  | list (elems : List FlValue)
  | map (entries : List (FlValue × FlValue))

/-- The Flutter `FlMethodResponse`: its three concrete classes. -/
inductive FlMethodResponse where
  | success (result : FlValue)
  | error (code : List Char) (message : List Char) (details : FlValue)
  | not_implemented

/-- The Flutter `FlMethodCall`: method name and arguments.  The name is a C string, so
it holds no NUL. -/
structure FlMethodCall where
  name : List Char
  args : FlValue
  name_c_string : NUL ∉ name

/-- The accessor `fl_method_call_get_name`. -/
def fl_method_call_get_name (method_call : FlMethodCall) : List Char :=
  method_call.name

/-- The constructor `fl_value_new_string`: copies the C string it is given. -/
def fl_value_new_string (value : List Char) : FlValue :=
  FlValue.string (c_str value)

/-- The constructor `fl_method_success_response_new`. -/
def fl_method_success_response_new (result : FlValue) : FlMethodResponse :=
  FlMethodResponse.success result

/-- The constructor `fl_method_not_implemented_response_new`. -/
def fl_method_not_implemented_response_new : FlMethodResponse :=
  FlMethodResponse.not_implemented

/-- The cast `FL_METHOD_RESPONSE`. -/
def FL_METHOD_RESPONSE (response : FlMethodResponse) : FlMethodResponse :=
  response

/-- The function `get_platform_version`: the record is zero-initialised, handed to
`uname` (whose status is discarded), and its `version` field is formatted after
the text `Linux `. -/
def get_platform_version (uname : Uname) : FlMethodResponse :=
  let uname_data : utsname := utsname_zero
  let uname_data := (uname uname_data).2
  let version := g_strdup_printf "Linux %s".toList [uname_data.version]
  let result := fl_value_new_string version
  FL_METHOD_RESPONSE (fl_method_success_response_new result)

/-! ## The host: GObject heap, channels, responses -/

/-- A pointer to a heap object, or a handle of the host. -/
abbrev gpointer := Nat

/-- The GObject instance header: its reference count (`0` once finalised). -/
structure GObject where
  ref_count : Nat
  deriving DecidableEq, Repr

/-- The instance `struct _Mfrc522Plugin`: the parent instance and no other field. -/
structure Mfrc522Plugin where
  parent_instance : GObject
  deriving DecidableEq, Repr

/-- The types registered with `G_DEFINE_TYPE` in this program. -/
inductive GType where
  | mfrc522_plugin
  deriving DecidableEq, Repr

/-- The Flutter method codecs. -/
inductive FlMethodCodec where
  | standard
  | json
  deriving DecidableEq, Repr

/-- The functions of this program used as `FlMethodChannelMethodCallHandler`. -/
inductive FlMethodChannelMethodCallHandler where
  | method_call_cb
  deriving DecidableEq, Repr

/-- The functions used as `GDestroyNotify`. -/
inductive GDestroyNotify where
  | g_object_unref
  deriving DecidableEq, Repr

/-- The handler installed on a channel: callback, user data and destroy notification. -/
structure MethodCallHandler where
  handler : FlMethodChannelMethodCallHandler
  user_data : gpointer
  destroy_notify : GDestroyNotify
  deriving DecidableEq, Repr

/-- The Flutter `FlMethodChannel`: messenger, name, codec and the installed handler. -/
structure FlMethodChannel where
  messenger : gpointer
  name : List Char
  codec : FlMethodCodec
  method_call_handler : Option MethodCallHandler
  deriving DecidableEq, Repr

/-- The Flutter `FlPluginRegistrar`, as far as the plugin uses it: its messenger. -/
structure FlPluginRegistrar where
  messenger : gpointer
  deriving DecidableEq, Repr

/-- The host state: the heap of plugin instances (a pointer is an index), the channels
opened on the messengers, and the responses handed to `fl_method_call_respond`, oldest
first. -/
structure Host where
  objects : List Mfrc522Plugin
  channels : List FlMethodChannel
  responses : List (FlMethodCall × FlMethodResponse)

/-- The type function `mfrc522_plugin_get_type` defined by `G_DEFINE_TYPE`. -/
def mfrc522_plugin_get_type : GType :=
  GType.mfrc522_plugin

/-- The cast `MFRC522_PLUGIN`: a checked cast, the pointer is unchanged. -/
def MFRC522_PLUGIN (obj : gpointer) : gpointer :=
  obj

/-- The cast `FL_METHOD_CODEC`. -/
def FL_METHOD_CODEC (codec : FlMethodCodec) : FlMethodCodec :=
  codec

/-- The instance initialiser `mfrc522_plugin_init`: an empty body. -/
def mfrc522_plugin_init (_self : gpointer) (h : Host) : Host :=
  h

/-- The GLib `g_object_new`: a fresh instance with reference count 1, on which the
instance initialiser has run. -/
def g_object_new (_object_type : GType) (h : Host) : gpointer × Host :=
  let object := h.objects.length
  let h1 : Host := { h with objects := h.objects ++ [{ parent_instance := { ref_count := 1 } }] }
  (object, mfrc522_plugin_init object h1)

/-- Reference count of the object a pointer designates, if it designates one. -/
def ref_count (h : Host) (object : gpointer) : Option Nat :=
  (h.objects[object]?).map (fun o => o.parent_instance.ref_count)

/-- The GLib `g_object_ref`: one more reference on a live object; the pointer is
returned. -/
def g_object_ref (object : gpointer) (h : Host) : gpointer × Host :=
  match h.objects[object]? with
  | none => (object, h)
  | some o =>
    if o.parent_instance.ref_count = 0 then (object, h)
    else
      (object,
        { h with
          objects := h.objects.set object
            { parent_instance := { ref_count := o.parent_instance.ref_count + 1 } } })

/-- The virtual `mfrc522_plugin_dispose`: chains to the parent class, which holds nothing
of the model. -/
def mfrc522_plugin_dispose (_object : gpointer) (h : Host) : Host :=
  h

/-- The GLib `g_object_unref`: one reference less on a live object; the last reference
disposes of the object and leaves the count at 0. -/
def g_object_unref (object : gpointer) (h : Host) : Host :=
  match h.objects[object]? with
  | none => h
  | some o =>
    if o.parent_instance.ref_count = 0 then h
    else
      let h1 := if o.parent_instance.ref_count = 1 then mfrc522_plugin_dispose object h else h;
      { h1 with
        objects := h1.objects.set object
          { parent_instance := { ref_count := o.parent_instance.ref_count - 1 } } }

/-- Running a destroy notification on the user data it was registered with. -/
def destroy_notify_run : GDestroyNotify → gpointer → Host → Host
  | GDestroyNotify.g_object_unref, data, h => g_object_unref data h

/-- The constructor `fl_standard_method_codec_new`. -/
def fl_standard_method_codec_new : FlMethodCodec :=
  FlMethodCodec.standard

/-- The accessor `fl_plugin_registrar_get_messenger`. -/
def fl_plugin_registrar_get_messenger (registrar : FlPluginRegistrar) : gpointer :=
  registrar.messenger

/-- The constructor `fl_method_channel_new`: a channel without handler, attached to the
messenger (which keeps it alive); the pointer returned is its index. -/
def fl_method_channel_new (messenger : gpointer) (name : List Char) (codec : FlMethodCodec)
    (h : Host) : gpointer × Host :=
  (h.channels.length,
   { h with
     channels := h.channels ++
       [{ messenger := messenger, name := c_str name, codec := codec,
          method_call_handler := none }] })

/-- The setter `fl_method_channel_set_method_call_handler`: the destroy notification of a
handler being replaced is run, then the new handler is stored. -/
def fl_method_channel_set_method_call_handler (channel : gpointer)
    (handler : FlMethodChannelMethodCallHandler) (user_data : gpointer)
    (destroy_notify : GDestroyNotify) (h : Host) : Host :=
  match h.channels[channel]? with
  | none => h
  | some ch =>
    let h1 := (match ch.method_call_handler with
      | none => h
      | some old => destroy_notify_run old.destroy_notify old.user_data h);
    { h1 with
      channels := h1.channels.set channel
        { ch with
          method_call_handler :=
            some { handler := handler, user_data := user_data, destroy_notify := destroy_notify } } }

/-- The Flutter `fl_method_call_respond`: the response is sent for the call. -/
def fl_method_call_respond (method_call : FlMethodCall) (response : FlMethodResponse)
    (h : Host) : Host :=
  { h with responses := h.responses ++ [(method_call, response)] }

/-! ## The plugin -/

/-- The dispatcher `mfrc522_plugin_handle_method_call`. -/
def mfrc522_plugin_handle_method_call (uname : Uname) (_self : gpointer)
    (method_call : FlMethodCall) (h : Host) : Host :=
  let method := fl_method_call_get_name method_call
  let response :=
    if strcmp method "getPlatformVersion".toList = 0 then
      get_platform_version uname
    else
      FL_METHOD_RESPONSE fl_method_not_implemented_response_new
  fl_method_call_respond method_call response h

/-- The callback `method_call_cb`. -/
def method_call_cb (uname : Uname) (_channel : gpointer) (method_call : FlMethodCall)
    (user_data : gpointer) (h : Host) : Host :=
  let plugin := MFRC522_PLUGIN user_data
  mfrc522_plugin_handle_method_call uname plugin method_call h

/-- Calling a function used as method-call handler. -/
def method_call_handler_run (uname : Uname) :
    FlMethodChannelMethodCallHandler → gpointer → FlMethodCall → gpointer → Host → Host
  | FlMethodChannelMethodCallHandler.method_call_cb, channel, method_call, user_data, h =>
    method_call_cb uname channel method_call user_data h

/-- The host delivering an incoming method call on a channel: the installed handler is
called with the channel, the call and the handler's user data; a channel without handler
answers that the method is not implemented. -/
def fl_method_channel_receive (uname : Uname) (channel : gpointer)
    (method_call : FlMethodCall) (h : Host) : Host :=
  match h.channels[channel]? with
  | none => h
  | some ch =>
    match ch.method_call_handler with
    | none => fl_method_call_respond method_call FlMethodResponse.not_implemented h
    | some hd => method_call_handler_run uname hd.handler channel method_call hd.user_data h

/-- The entry point `mfrc522_plugin_register_with_registrar`.  The locals `codec` and
`channel` are `g_autoptr`: leaving the function drops the local references, the channel
staying attached to its messenger. -/
def mfrc522_plugin_register_with_registrar (registrar : FlPluginRegistrar) (h : Host) : Host :=
  let (object, h1) := g_object_new mfrc522_plugin_get_type h
  let plugin := MFRC522_PLUGIN object
  let codec := fl_standard_method_codec_new
  let (channel, h2) :=
    fl_method_channel_new (fl_plugin_registrar_get_messenger registrar) "mfrc522".toList
      (FL_METHOD_CODEC codec) h1
  let (user_data, h3) := g_object_ref plugin h2
  let h4 :=
    fl_method_channel_set_method_call_handler channel
      FlMethodChannelMethodCallHandler.method_call_cb user_data GDestroyNotify.g_object_unref h3
  g_object_unref plugin h4

/-! ## Sample data -/

/-- A field of the record holding the given text, padded with NULs. -/
def utsname_field (text : String) : List Char :=
  text.toList ++ List.replicate (UTSNAME_LENGTH - text.length) NUL

/-- A `uname` that succeeds and fills every field. -/
def uname_sample : Uname := fun _ =>
  (0,
   { sysname := utsname_field "Linux"
     nodename := utsname_field "host"
     release := utsname_field "6.1.0-18-amd64"
     version := utsname_field "#1 SMP Debian 6.1.76-1"
     machine := utsname_field "x86_64"
     domainname := utsname_field "(none)" })

/-- A `uname` that fails and leaves the record as it found it. -/
def uname_failing : Uname := fun buf => (-1, buf)

/-- The call of the first scenario: `getPlatformVersion` without arguments. -/
def call_get_platform_version : FlMethodCall :=
  { name := "getPlatformVersion".toList, args := FlValue.null, name_c_string := by decide }

/-- The call `getPlatformVersion` with an argument. -/
def call_get_platform_version_arg : FlMethodCall :=
  { name := "getPlatformVersion".toList, args := FlValue.int 7, name_c_string := by decide }

/-- The call of the second scenario: `ping` with an empty map. -/
def call_ping : FlMethodCall :=
  { name := "ping".toList, args := FlValue.map [], name_c_string := by decide }

/-- A call whose name differs from the recognised one in case only. -/
def call_capitalised : FlMethodCall :=
  { name := "GetPlatformVersion".toList, args := FlValue.null, name_c_string := by decide }

/-- The host before anything is registered. -/
def host_empty : Host :=
  { objects := [], channels := [], responses := [] }

/-- The channel the registration opens, for a plugin object at the given address. -/
def registered_channel (registrar : FlPluginRegistrar) (plugin : gpointer) : FlMethodChannel :=
  { messenger := registrar.messenger
    name := "mfrc522".toList
    codec := FlMethodCodec.standard
    method_call_handler :=
      some { handler := FlMethodChannelMethodCallHandler.method_call_cb
             user_data := plugin
             destroy_notify := GDestroyNotify.g_object_unref } }

/-! ## Lemmas on C strings -/

theorem char_eq_NUL_of_toNat (c : Char) (h : c.toNat = 0) : c = NUL := by
  have h1 : Char.ofNat c.toNat = c := Char.ofNat_toNat c
  rw [h] at h1
  exact h1.symm

theorem char_toNat_ne (c1 c2 : Char) (h : c1 ≠ c2) : (c1.toNat : Int) - (c2.toNat : Int) ≠ 0 := by
  intro h0
  apply h
  have h1 : c1.toNat = c2.toNat := by omega
  rw [← Char.ofNat_toNat c1, ← Char.ofNat_toNat c2, h1]

theorem c_str_of_nul_free (s : List Char) (h : NUL ∉ s) : c_str s = s := by
  unfold c_str
  rw [List.takeWhile_eq_self_iff]
  intro c hc
  simp only [bne_iff_ne, ne_eq]
  intro hcn
  exact h (hcn ▸ hc)

theorem nul_not_mem_c_str (s : List Char) : NUL ∉ c_str s := by
  unfold c_str
  intro hmem
  have := List.mem_takeWhile_imp hmem
  simp at this

theorem strcmp_eq_zero_iff (s1 s2 : List Char) (h1 : NUL ∉ s1) (h2 : NUL ∉ s2) :
    strcmp s1 s2 = 0 ↔ s1 = s2 := by
  induction s1 generalizing s2 with
  | nil =>
    cases s2 with
    | nil => simp [strcmp]
    | cons c2 t2 =>
      have hc : c2 ≠ NUL := fun e => h2 (e ▸ List.mem_cons_self _ _)
      have hn : c2.toNat ≠ 0 := fun e => hc (char_eq_NUL_of_toNat c2 e)
      simp only [strcmp]
      constructor
      · intro h0; omega
      · intro h0; cases h0
  | cons c1 t1 ih =>
    have hc1 : c1 ≠ NUL := fun e => h1 (e ▸ List.mem_cons_self _ _)
    have ht1 : NUL ∉ t1 := fun m => h1 (List.mem_cons_of_mem _ m)
    cases s2 with
    | nil =>
      have hn : c1.toNat ≠ 0 := fun e => hc1 (char_eq_NUL_of_toNat c1 e)
      simp only [strcmp]
      constructor
      · intro h0; omega
      · intro h0; cases h0
    | cons c2 t2 =>
      have ht2 : NUL ∉ t2 := fun m => h2 (List.mem_cons_of_mem _ m)
      simp only [strcmp]
      by_cases hc : c1 = c2
      · subst hc
        simp only [if_true, if_neg hc1, List.cons.injEq, true_and]
        exact ih t2 ht1 ht2
      · simp only [if_neg hc, List.cons.injEq, hc, false_and, iff_false]
        exact char_toNat_ne c1 c2 hc

theorem g_strdup_printf_linux (version : List Char) :
    g_strdup_printf "Linux %s".toList [version] = "Linux ".toList ++ c_str version := by
  simp [g_strdup_printf]

theorem get_platform_version_eq (uname : Uname) :
    get_platform_version uname =
      FlMethodResponse.success
        (FlValue.string ("Linux ".toList ++ c_str (uname utsname_zero).2.version)) := by
  have hfree : NUL ∉ "Linux ".toList ++ c_str (uname utsname_zero).2.version := by
    intro hmem
    rcases List.mem_append.mp hmem with hl | hr
    · revert hl; decide
    · exact nul_not_mem_c_str _ hr
  simp only [get_platform_version, g_strdup_printf_linux, fl_value_new_string,
    fl_method_success_response_new, FL_METHOD_RESPONSE, c_str_of_nul_free _ hfree]

/-- The response the dispatcher computes for a method name. -/
theorem handle_method_call_eq (uname : Uname) (self : gpointer) (method_call : FlMethodCall)
    (h : Host) :
    mfrc522_plugin_handle_method_call uname self method_call h =
      { h with
        responses := h.responses ++
          [(method_call,
            if method_call.name = "getPlatformVersion".toList then get_platform_version uname
            else FlMethodResponse.not_implemented)] } := by
  have hname : NUL ∉ "getPlatformVersion".toList := by decide
  have hiff := strcmp_eq_zero_iff method_call.name "getPlatformVersion".toList
    method_call.name_c_string hname
  unfold mfrc522_plugin_handle_method_call fl_method_call_respond fl_method_call_get_name
  dsimp only
  by_cases hn : method_call.name = "getPlatformVersion".toList
  · rw [if_pos (hiff.mpr hn), if_pos hn]
  · have hne : ¬ strcmp method_call.name "getPlatformVersion".toList = 0 := fun e => hn (hiff.mp e)
    rw [if_neg hne, if_neg hn]
    rfl

theorem list_set_append_length {α : Type} (l : List α) (x y : α) :
    (l ++ [x]).set l.length y = l ++ [y] := by
  induction l with
  | nil => rfl
  | cons a t ih => simp [List.set, ih]

theorem register_eq (registrar : FlPluginRegistrar) (h : Host) :
    mfrc522_plugin_register_with_registrar registrar h =
      { objects := h.objects ++ [{ parent_instance := { ref_count := 1 } }]
        channels := h.channels ++ [registered_channel registrar h.objects.length]
        responses := h.responses } := by
  have hname : c_str ['m', 'f', 'r', 'c', '5', '2', '2'] = ['m', 'f', 'r', 'c', '5', '2', '2'] := by
    decide
  simp [mfrc522_plugin_register_with_registrar, g_object_new, mfrc522_plugin_init,
    mfrc522_plugin_get_type, MFRC522_PLUGIN, fl_standard_method_codec_new, FL_METHOD_CODEC,
    fl_method_channel_new, fl_plugin_registrar_get_messenger, g_object_ref,
    fl_method_channel_set_method_call_handler, g_object_unref, mfrc522_plugin_dispose,
    registered_channel, hname, list_set_append_length]

/-! ## The claims -/

/-- C1: for every call named exactly `getPlatformVersion`, whatever its arguments and
whatever `uname` returns, the dispatcher responds with a success response carrying a
string that starts with `Linux `. -/
theorem C1_get_platform_version_success (uname : Uname) (self : gpointer)
    (method_call : FlMethodCall) (h : Host)
    (hname : fl_method_call_get_name method_call = "getPlatformVersion".toList) :
    ∃ s : List Char,
      (mfrc522_plugin_handle_method_call uname self method_call h).responses =
        h.responses ++ [(method_call, FlMethodResponse.success (FlValue.string s))] ∧
      "Linux ".toList <+: s := by
  refine ⟨"Linux ".toList ++ c_str (uname utsname_zero).2.version, ?_, List.prefix_append _ _⟩
  have hn : method_call.name = "getPlatformVersion".toList := hname
  rw [handle_method_call_eq]
  simp only [hn, if_true, get_platform_version_eq]

/-- Witness of C1: the scenario call on the empty host, with the sample `uname`. -/
theorem C1_get_platform_version_success_witness :
    fl_method_call_get_name call_get_platform_version = "getPlatformVersion".toList ∧
    ∃ s : List Char,
      (mfrc522_plugin_handle_method_call uname_sample 0 call_get_platform_version
        host_empty).responses =
        host_empty.responses ++
          [(call_get_platform_version, FlMethodResponse.success (FlValue.string s))] ∧
      "Linux ".toList <+: s :=
  ⟨rfl, C1_get_platform_version_success uname_sample 0 call_get_platform_version host_empty rfl⟩

/-- C2: for every call whose name is any string other than `getPlatformVersion`, the
dispatcher responds with the not-implemented response; the comparison is exact and
case-sensitive. -/
theorem C2_other_name_not_implemented (uname : Uname) (self : gpointer)
    (method_call : FlMethodCall) (h : Host)
    (hname : fl_method_call_get_name method_call ≠ "getPlatformVersion".toList) :
    (mfrc522_plugin_handle_method_call uname self method_call h).responses =
      h.responses ++ [(method_call, FlMethodResponse.not_implemented)] := by
  have hn : ¬ method_call.name = "getPlatformVersion".toList := hname
  rw [handle_method_call_eq]
  simp only [hn, if_false]

/-- Witness of C2: the name `GetPlatformVersion`, which differs in case only. -/
theorem C2_other_name_not_implemented_witness :
    fl_method_call_get_name call_capitalised ≠ "getPlatformVersion".toList ∧
    (mfrc522_plugin_handle_method_call uname_sample 0 call_capitalised host_empty).responses =
      host_empty.responses ++ [(call_capitalised, FlMethodResponse.not_implemented)] :=
  ⟨by decide, C2_other_name_not_implemented uname_sample 0 call_capitalised host_empty (by decide)⟩

/-- Counterexample to C3 as stated: with a `uname` whose release is `6.1.0-18-amd64` and
whose version is `#1 SMP Debian 6.1.76-1`, the response to `getPlatformVersion` carries the
version text, not `Linux ` followed by the release. -/
theorem C3_release_counterexample :
    (mfrc522_plugin_handle_method_call uname_sample 0 call_get_platform_version
      host_empty).responses =
      [(call_get_platform_version,
        FlMethodResponse.success (FlValue.string "Linux #1 SMP Debian 6.1.76-1".toList))] ∧
    (mfrc522_plugin_handle_method_call uname_sample 0 call_get_platform_version
      host_empty).responses ≠
      [(call_get_platform_version,
        FlMethodResponse.success
          (FlValue.string ("Linux ".toList ++ c_str (uname_sample utsname_zero).2.release)))] := by
  have hv : "Linux ".toList ++ c_str (uname_sample utsname_zero).2.version =
      "Linux #1 SMP Debian 6.1.76-1".toList := by decide
  have hr : "Linux #1 SMP Debian 6.1.76-1".toList ≠
      "Linux ".toList ++ c_str (uname_sample utsname_zero).2.release := by decide
  have hresp : (mfrc522_plugin_handle_method_call uname_sample 0 call_get_platform_version
      host_empty).responses =
      [(call_get_platform_version,
        FlMethodResponse.success (FlValue.string "Linux #1 SMP Debian 6.1.76-1".toList))] := by
    rw [handle_method_call_eq, get_platform_version_eq, hv]
    rfl
  refine ⟨hresp, ?_⟩
  rw [hresp]
  intro h
  simp only [List.cons.injEq, Prod.mk.injEq, FlMethodResponse.success.injEq,
    FlValue.string.injEq, and_true, true_and] at h
  exact hr h

/-- C3 (amended): for every `uname`, the string carried by the success response to
`getPlatformVersion` is `Linux ` followed by the C string of the record's `version`
field, so two records with the same `version` field give the same response whatever their
other fields hold. -/
theorem C3_version_field (uname : Uname) (self : gpointer) (method_call : FlMethodCall)
    (h : Host) (hname : fl_method_call_get_name method_call = "getPlatformVersion".toList) :
    (mfrc522_plugin_handle_method_call uname self method_call h).responses =
      h.responses ++
        [(method_call,
          FlMethodResponse.success
            (FlValue.string ("Linux ".toList ++ c_str (uname utsname_zero).2.version)))] ∧
    ∀ uname2 : Uname, (uname2 utsname_zero).2.version = (uname utsname_zero).2.version →
      mfrc522_plugin_handle_method_call uname2 self method_call h =
        mfrc522_plugin_handle_method_call uname self method_call h := by
  have hn : method_call.name = "getPlatformVersion".toList := hname
  constructor
  · rw [handle_method_call_eq]
    simp only [hn, if_true, get_platform_version_eq]
  · intro uname2 hv
    rw [handle_method_call_eq, handle_method_call_eq, get_platform_version_eq,
      get_platform_version_eq, hv]

/-- Witness of C3 (amended): the scenario call with the sample `uname`. -/
theorem C3_version_field_witness :
    fl_method_call_get_name call_get_platform_version = "getPlatformVersion".toList ∧
    (mfrc522_plugin_handle_method_call uname_sample 0 call_get_platform_version
      host_empty).responses =
      host_empty.responses ++
        [(call_get_platform_version,
          FlMethodResponse.success
            (FlValue.string
              ("Linux ".toList ++ c_str (uname_sample utsname_zero).2.version)))] :=
  ⟨rfl, (C3_version_field uname_sample 0 call_get_platform_version host_empty rfl).1⟩

/-- C4: for every call the dispatcher produces exactly one response: the log of
`fl_method_call_respond` grows by exactly one entry, which is for that call, on the
recognised path and on the other one alike. -/
theorem C4_exactly_one_response (uname : Uname) (self : gpointer) (method_call : FlMethodCall)
    (h : Host) :
    (∃ response : FlMethodResponse,
      (mfrc522_plugin_handle_method_call uname self method_call h).responses =
        h.responses ++ [(method_call, response)]) ∧
    (mfrc522_plugin_handle_method_call uname self method_call h).responses.length =
      h.responses.length + 1 := by
  rw [handle_method_call_eq]
  exact ⟨⟨_, rfl⟩, by simp⟩

/-- C5: for every two calls with the same method name, whatever their arguments (and
whatever plugin pointer and host state), under the same `uname` the dispatcher gives both
the same response. -/
theorem C5_arguments_ignored (uname : Uname) (self1 self2 : gpointer)
    (call1 call2 : FlMethodCall) (h1 h2 : Host)
    (hname : fl_method_call_get_name call1 = fl_method_call_get_name call2) :
    ∃ response : FlMethodResponse,
      (mfrc522_plugin_handle_method_call uname self1 call1 h1).responses =
        h1.responses ++ [(call1, response)] ∧
      (mfrc522_plugin_handle_method_call uname self2 call2 h2).responses =
        h2.responses ++ [(call2, response)] := by
  have hn : call1.name = call2.name := hname
  rw [handle_method_call_eq, handle_method_call_eq, hn]
  exact ⟨_, rfl, rfl⟩

/-- Witness of C5: `getPlatformVersion` without argument and with the argument 7. -/
theorem C5_arguments_ignored_witness :
    fl_method_call_get_name call_get_platform_version =
      fl_method_call_get_name call_get_platform_version_arg ∧
    ∃ response : FlMethodResponse,
      (mfrc522_plugin_handle_method_call uname_sample 0 call_get_platform_version
        host_empty).responses =
        host_empty.responses ++ [(call_get_platform_version, response)] ∧
      (mfrc522_plugin_handle_method_call uname_sample 0 call_get_platform_version_arg
        host_empty).responses =
        host_empty.responses ++ [(call_get_platform_version_arg, response)] :=
  ⟨rfl,
   C5_arguments_ignored uname_sample 0 0 call_get_platform_version
     call_get_platform_version_arg host_empty host_empty rfl⟩

/-- C6: two dispatches of the same call in sequence, under the same `uname`, log two equal
responses, and a dispatch leaves the heap of plugin objects (and the channels) as it found
them. -/
theorem C6_idempotent_no_state (uname : Uname) (self : gpointer) (method_call : FlMethodCall)
    (h : Host) :
    (∃ response : FlMethodResponse,
      (mfrc522_plugin_handle_method_call uname self method_call
        (mfrc522_plugin_handle_method_call uname self method_call h)).responses =
        h.responses ++ [(method_call, response), (method_call, response)]) ∧
    (mfrc522_plugin_handle_method_call uname self method_call h).objects = h.objects ∧
    (mfrc522_plugin_handle_method_call uname self method_call h).channels = h.channels := by
  rw [handle_method_call_eq, handle_method_call_eq]
  refine ⟨⟨if method_call.name = "getPlatformVersion".toList then get_platform_version uname
      else FlMethodResponse.not_implemented, ?_⟩, rfl, rfl⟩
  simp only [List.append_assoc, List.singleton_append]

/-- C7: the response the dispatcher produces is a success response or the not-implemented
response, never an error response, and it is a success response exactly when the method
name is `getPlatformVersion`. -/
theorem C7_success_or_not_implemented (uname : Uname) (self : gpointer)
    (method_call : FlMethodCall) (h : Host) :
    ∃ response : FlMethodResponse,
      (mfrc522_plugin_handle_method_call uname self method_call h).responses =
        h.responses ++ [(method_call, response)] ∧
      ((∃ value, response = FlMethodResponse.success value) ∨
        response = FlMethodResponse.not_implemented) ∧
      (∀ code message details, response ≠ FlMethodResponse.error code message details) ∧
      ((∃ value, response = FlMethodResponse.success value) ↔
        fl_method_call_get_name method_call = "getPlatformVersion".toList) := by
  rw [handle_method_call_eq]
  refine ⟨_, rfl, ?_⟩
  unfold fl_method_call_get_name
  by_cases hn : method_call.name = "getPlatformVersion".toList
  · rw [if_pos hn, get_platform_version_eq]
    refine ⟨Or.inl ⟨_, rfl⟩, ?_, ?_⟩
    · intro code message details e
      cases e
    · exact ⟨fun _ => hn, fun _ => ⟨_, rfl⟩⟩
  · rw [if_neg hn]
    refine ⟨Or.inr rfl, ?_, ?_⟩
    · intro code message details e
      cases e
    · constructor
      · rintro ⟨value, e⟩
        cases e
      · intro e
        exact absurd e hn

/-- C8: registration opens exactly one channel, named `mfrc522`, with the standard method
codec, and installs on it one handler, `method_call_cb` bound to the new plugin object;
`method_call_cb` is one run of the dispatcher on the call it is given, so a call delivered
on the registered channel is dispatched exactly once and gets exactly one response. -/
theorem C8_register_and_route (uname : Uname) (registrar : FlPluginRegistrar) (h : Host)
    (method_call : FlMethodCall) (channel user_data : gpointer) (h2 : Host) :
    (mfrc522_plugin_register_with_registrar registrar h).channels =
      h.channels ++
        [{ messenger := fl_plugin_registrar_get_messenger registrar
           name := "mfrc522".toList
           codec := FlMethodCodec.standard
           method_call_handler :=
             some { handler := FlMethodChannelMethodCallHandler.method_call_cb
                    user_data := h.objects.length
                    destroy_notify := GDestroyNotify.g_object_unref } }] ∧
    method_call_cb uname channel method_call user_data h2 =
      mfrc522_plugin_handle_method_call uname user_data method_call h2 ∧
    fl_method_channel_receive uname h.channels.length method_call
        (mfrc522_plugin_register_with_registrar registrar h) =
      mfrc522_plugin_handle_method_call uname h.objects.length method_call
        (mfrc522_plugin_register_with_registrar registrar h) ∧
    ∃ response : FlMethodResponse,
      (fl_method_channel_receive uname h.channels.length method_call
        (mfrc522_plugin_register_with_registrar registrar h)).responses =
        (mfrc522_plugin_register_with_registrar registrar h).responses ++
          [(method_call, response)] := by
  have hrecv : fl_method_channel_receive uname h.channels.length method_call
        (mfrc522_plugin_register_with_registrar registrar h) =
      mfrc522_plugin_handle_method_call uname h.objects.length method_call
        (mfrc522_plugin_register_with_registrar registrar h) := by
    rw [register_eq]
    simp [fl_method_channel_receive, registered_channel, method_call_handler_run,
      method_call_cb, MFRC522_PLUGIN]
  refine ⟨?_, rfl, hrecv, ?_⟩
  · rw [register_eq]
    rfl
  · rw [hrecv, handle_method_call_eq]
    exact ⟨_, rfl⟩

/-- C10: registration creates the plugin object with reference count 1, has raised it to 2
once the handler is installed, and drops it back to 1 before returning; the reference left
is the one held by the installed handler, whose destroy notification `g_object_unref`, run
once on the handler's user data, brings the count to 0. -/
theorem C10_reference_count (registrar : FlPluginRegistrar) (h : Host) :
    let plugin := h.objects.length
    let created := g_object_new mfrc522_plugin_get_type h
    let opened :=
      fl_method_channel_new (fl_plugin_registrar_get_messenger registrar) "mfrc522".toList
        (FL_METHOD_CODEC fl_standard_method_codec_new) created.2
    let referenced := g_object_ref plugin opened.2
    let installed :=
      fl_method_channel_set_method_call_handler opened.1
        FlMethodChannelMethodCallHandler.method_call_cb referenced.1
        GDestroyNotify.g_object_unref referenced.2
    let registered := mfrc522_plugin_register_with_registrar registrar h
    created.1 = plugin ∧
    ref_count created.2 plugin = some 1 ∧
    ref_count installed plugin = some 2 ∧
    registered = g_object_unref plugin installed ∧
    ref_count registered plugin = some 1 ∧
    (registered.channels[h.channels.length]?).bind (fun ch => ch.method_call_handler) =
      some { handler := FlMethodChannelMethodCallHandler.method_call_cb
             user_data := plugin
             destroy_notify := GDestroyNotify.g_object_unref } ∧
    ref_count (destroy_notify_run GDestroyNotify.g_object_unref plugin registered) plugin =
      some 0 := by
  have hname : c_str ['m', 'f', 'r', 'c', '5', '2', '2'] = ['m', 'f', 'r', 'c', '5', '2', '2'] := by
    decide
  intro plugin created opened referenced installed registered
  refine ⟨rfl, ?_, ?_, rfl, ?_, ?_, ?_⟩
  · simp [created, plugin, ref_count, g_object_new, mfrc522_plugin_init]
  · simp [installed, referenced, opened, created, plugin, ref_count, g_object_new,
      mfrc522_plugin_init, fl_method_channel_new, g_object_ref,
      fl_method_channel_set_method_call_handler, list_set_append_length]
  · simp [registered, plugin, register_eq, ref_count]
  · simp [registered, plugin, register_eq, registered_channel]
  · simp [registered, plugin, register_eq, ref_count, destroy_notify_run, g_object_unref,
      mfrc522_plugin_dispose, list_set_append_length]

/-- C9: when `uname` writes nothing into the record (whatever status it returns, the
failure status included), `get_platform_version` returns the success response whose string
is exactly `Linux `; and whatever `uname` does, its response is a success response. -/
theorem C9_uname_failure (uname : Uname) (status : Int)
    (hfail : uname utsname_zero = (status, utsname_zero)) :
    get_platform_version uname =
      FlMethodResponse.success (FlValue.string "Linux ".toList) ∧
    ∀ uname2 : Uname, ∃ value, get_platform_version uname2 = FlMethodResponse.success value := by
  constructor
  · rw [get_platform_version_eq, hfail]
    have hz : c_str utsname_zero.version = [] := by decide
    simp only [hz, List.append_nil]
  · intro uname2
    exact ⟨_, get_platform_version_eq uname2⟩

/-- Witness of C9: the `uname` that returns -1 and leaves the record untouched. -/
theorem C9_uname_failure_witness :
    uname_failing utsname_zero = (-1, utsname_zero) ∧
    get_platform_version uname_failing =
      FlMethodResponse.success (FlValue.string "Linux ".toList) :=
  ⟨rfl, (C9_uname_failure uname_failing (-1) rfl).1⟩

end Mfrc522
